import Mathlib

/-!
Verification of the single-frame UDS REPL lab.

This file gives a shallow embedding of the protocol core of
src/uds_uds.py:

* the ISO-TP single-frame codec (make_isotp_single_frame,
  parse_isotp_single_frame);
* the mini ECU stub dispatcher (MiniECUStub.run), modelled as a pure
  step function from the decoded request payload and the current
  security state to the next state plus the ordered list of observable
  effects (transmitted payloads and sleeps);
* the single-frame UDS client (UDSClientSF.send), modelled over an
  explicit finite trace of poll results standing for the receive
  attempts that fit inside the fixed deadline.

Bytes are modelled as natural numbers; byte strings as lists of
naturals. Python exceptions are modelled with Option/Except.
-/

namespace UDSLab

/-- Python bytes.ljust: pad on the right with the fill byte up to width
n (no-op if the string is already at least that long). -/
def ljust (l : List Nat) (n : Nat) (fill : Nat) : List Nat :=
  l ++ List.replicate (n - l.length) fill

/-- make_isotp_single_frame: raises ValueError when the payload exceeds
7 bytes (modelled as none); otherwise one PCI byte whose low nibble is
the payload length (high nibble 0), then the payload, zero-padded to 8
bytes. -/
def make_isotp_single_frame (payload : List Nat) : Option (List Nat) :=
  if payload.length > 7 then none
  else
    some (ljust ((payload.length &&& 0x0F) :: payload) 8 0x00)

/-- parse_isotp_single_frame: an empty body gives the empty payload;
otherwise the low nibble of the first byte is the length and the
following bytes — as many as are actually available, Python slice
semantics — are the payload. Total: never fails. -/
def parse_isotp_single_frame (data : List Nat) : List Nat :=
  match data with
  | [] => []
  | b :: rest => rest.take (b &&& 0x0F)

/-- A raw CAN message: arbitration id plus data bytes. -/
structure BusFrame where
  arb : Nat
  data : List Nat
  deriving Repr, DecidableEq

/-- MiniECUStub._sub_spr: split a sub-function byte into its core value
(bit 7 masked off) and the suppress-positive-response flag (bit 7). -/
def sub_spr (sub : Nat) : Nat × Bool :=
  (sub &&& 0x7F, sub &&& 0x80 != 0)

/-- The mutable ECU-side security state (MiniECUStub.unlocked and
MiniECUStub._last_seed). -/
structure ECUState where
  unlocked : Bool
  lastSeed : Option Nat
  deriving Repr, DecidableEq

/-- An observable effect of one dispatcher iteration: a transmitted
response payload (sent via send_sf on the response id) or a time.sleep
of the given number of milliseconds. -/
inductive ECUEvent where
  | tx : List Nat → ECUEvent
  | sleep : Nat → ECUEvent
  deriving Repr, DecidableEq

/-- MiniECUStub._send_nrc: the negative-response triple for a service. -/
def send_nrc (sid code : Nat) : ECUEvent :=
  .tx [0x7F, sid, code]

/-- MiniECUStub.did_map: the static DID table (ASCII values). -/
def did_map : Nat → Nat → Option (List Nat)
  | 0xF1, 0x87 => some [0x56, 0x31, 0x30]
  | 0xF1, 0x88 => some [0x45, 0x43, 0x55]
  | 0xF1, 0x8C => some [0x42, 0x54, 0x31]
  | 0xF1, 0x89 => some [0x48, 0x57, 0x31]
  | 0xF1, 0x95 => some [0x53, 0x55, 0x50]
  | 0xF1, 0xA0 => some [0x58, 0x31]
  | _, _ => none

/-- One dispatch of MiniECUStub.run on a decoded (non-empty) request
payload. rand stands for the value random.randint(0, 0xFFFF) would
return if this iteration requests a seed. Returns the new state and the
ordered effects of the iteration. -/
def ecuDispatch (st : ECUState) (rand : Nat) (uds : List Nat) :
    ECUState × List ECUEvent :=
  let sid := uds.getD 0 0
  if sid = 0x10 then
    -- DiagnosticSessionControl
    if uds.length < 2 then (st, [send_nrc 0x10 0x11])
    else
      let sub_wo := (sub_spr (uds.getD 1 0)).1
      let suppress := (sub_spr (uds.getD 1 0)).2
      if sub_wo = 0x01 ∨ sub_wo = 0x03 then
        (st, (if sub_wo = 0x03 then [send_nrc 0x10 0x78, ECUEvent.sleep 150] else []) ++
             (if suppress then [] else [ECUEvent.tx [0x50, sub_wo]]))
      else (st, [send_nrc 0x10 0x12])
  else if sid = 0x11 then
    -- ECUReset
    if uds.length < 2 then (st, [send_nrc 0x11 0x11])
    else
      let sub_wo := (sub_spr (uds.getD 1 0)).1
      let suppress := (sub_spr (uds.getD 1 0)).2
      if sub_wo = 0x01 ∨ sub_wo = 0x03 then
        (st, if suppress then [] else [ECUEvent.tx [0x51, sub_wo]])
      else (st, [send_nrc 0x11 0x12])
  else if sid = 0x22 then
    -- ReadDataByIdentifier
    if uds.length < 3 then (st, [send_nrc 0x22 0x11])
    else
      let did_hi := uds.getD 1 0
      let did_lo := uds.getD 2 0
      match did_map did_hi did_lo with
      | some value =>
        if value.length ≤ 4 then
          (st, [ECUEvent.tx ([0x62, did_hi, did_lo] ++ value)])
        else (st, [send_nrc 0x22 0x31])
      | none => (st, [send_nrc 0x22 0x31])
  else if sid = 0x27 then
    -- SecurityAccess
    if uds.length < 2 then (st, [send_nrc 0x27 0x11])
    else
      let sub := uds.getD 1 0
      if sub = 0x01 then
        ({ st with lastSeed := some rand },
         [ECUEvent.tx [0x67, 0x01, (rand >>> 8) &&& 0xFF, rand &&& 0xFF]])
      else if sub = 0x02 then
        if uds.length < 4 then (st, [send_nrc 0x27 0x11])
        else
          let key := (uds.getD 2 0 <<< 8) ||| uds.getD 3 0
          let expected := (st.lastSeed.getD 0 + 1) &&& 0xFFFF
          if key = expected then
            ({ st with unlocked := true }, [ECUEvent.tx [0x67, 0x02]])
          else
            ({ st with unlocked := false }, [send_nrc 0x27 0x35])
      else (st, [send_nrc 0x27 0x12])
  else if sid = 0x19 then
    -- ReadDTCInformation
    if uds.length < 2 then (st, [send_nrc 0x19 0x11])
    else if uds.getD 1 0 = 0x02 then
      (st, [ECUEvent.tx [0x59, 0x02, 0x12, 0x34, 0x56, 0x00]])
    else (st, [send_nrc 0x19 0x12])
  else if sid = 0x31 then
    -- RoutineControl
    if uds.length < 2 then (st, [send_nrc 0x31 0x11])
    else if uds.getD 1 0 = 0x01 then
      if uds.length < 4 then (st, [send_nrc 0x31 0x11])
      else
        let rid_hi := uds.getD 2 0
        let rid_lo := uds.getD 3 0
        if (rid_hi <<< 8) ||| rid_lo = 0xFF00 then
          (st, [ECUEvent.tx [0x71, 0x01, rid_hi, rid_lo, 0x00]])
        else (st, [send_nrc 0x31 0x31])
    else (st, [send_nrc 0x31 0x12])
  else if sid = 0x3E then
    -- TesterPresent
    let sub := if 2 ≤ uds.length then uds.getD 1 0 else 0x00
    let sub_wo := (sub_spr sub).1
    let suppress := (sub_spr sub).2
    (st, if suppress then [] else [ECUEvent.tx [0x7E, sub_wo]])
  else if sid = 0x85 then
    -- ControlDTCSetting
    if uds.length < 2 then (st, [send_nrc 0x85 0x11])
    else
      let sub_wo := (sub_spr (uds.getD 1 0)).1
      let suppress := (sub_spr (uds.getD 1 0)).2
      if sub_wo = 0x01 ∨ sub_wo = 0x02 then
        (st, if suppress then [] else [ECUEvent.tx [0xC5, sub_wo]])
      else (st, [send_nrc 0x85 0x12])
  else
    -- Service not supported
    (st, [send_nrc sid 0x11])

/-- One iteration of the MiniECUStub.run receive loop at frame level:
frames with the wrong arbitration id, empty data, or an empty decoded
payload are ignored. -/
def ecuStep (reqId : Nat) (st : ECUState) (rand : Nat)
    (msg : Option BusFrame) : ECUState × List ECUEvent :=
  match msg with
  | none => (st, [])
  | some m =>
    if m.arb ≠ reqId ∨ m.data.length = 0 then (st, [])
    else
      let uds := parse_isotp_single_frame m.data
      if uds = [] then (st, [])
      else ecuDispatch st rand uds

/-- The interim-response test in UDSClientSF.send:
len(pl) >= 3 and pl[0] == 0x7F and pl[2] == 0x78. -/
def isInterim (pl : List Nat) : Bool :=
  decide (3 ≤ pl.length) && (pl.getD 0 0 == 0x7F) && (pl.getD 2 0 == 0x78)

/-- Failure modes of UDSClientSF.send: the ValueError raised by the
codec for oversized payloads, and the TimeoutError raised when the
deadline elapses. -/
inductive ClientError where
  | payloadTooLarge
  | timeout
  deriving Repr, DecidableEq

/-- The receive loop of UDSClientSF.send over an explicit finite trace
of poll results (each bus.recv either yields a frame or none); the
trace stands for all the polls that fit before the fixed deadline, so
exhausting it raises TimeoutError. Frames with the wrong arbitration
id are skipped; an interim response keeps the loop waiting; any other
decoded payload is returned as final. -/
def clientRecvLoop (resId : Nat) :
    List (Option BusFrame) → Except ClientError (List Nat)
  | [] => .error .timeout
  | poll :: rest =>
    match poll with
    | none => clientRecvLoop resId rest
    | some f =>
      if f.arb = resId then
        let pl := parse_isotp_single_frame f.data
        if isInterim pl then clientRecvLoop resId rest
        else .ok pl
      else clientRecvLoop resId rest

/-- The outcome of one UDSClientSF.send call: the frames it put on the
bus and its result. -/
structure SendOutcome where
  txFrames : List BusFrame
  result : Except ClientError (List Nat)
  deriving Repr

/-- UDSClientSF.send: encode the request (the ValueError from the codec
propagates before anything is transmitted), send it on the request id,
then run the receive loop over the polls available before the
deadline. -/
def clientSend (reqId resId : Nat) (payload : List Nat)
    (polls : List (Option BusFrame)) : SendOutcome :=
  match make_isotp_single_frame payload with
  | none => ⟨[], .error .payloadTooLarge⟩
  | some body => ⟨[⟨reqId, body⟩], clientRecvLoop resId polls⟩

/-- An event is the transmission of a final positive response (first
payload byte one of the positive service ids 0x50, 0x51, 0x7E, 0xC5 of
the services honouring the suppress bit). -/
def isFinalPositive : ECUEvent → Bool
  | .tx pl => pl.getD 0 0 == 0x50 || pl.getD 0 0 == 0x51 ||
              pl.getD 0 0 == 0x7E || pl.getD 0 0 == 0xC5
  | .sleep _ => false

/-! ### Bitwise helper lemmas -/

lemma land_0F_eq (n : Nat) (h : n < 16) : n &&& 0x0F = n := by
  have hx := Nat.and_pow_two_sub_one_eq_mod n 4
  norm_num at hx
  rw [hx]; omega

lemma land_7F_of_lt (n : Nat) (h : n < 128) : n &&& 0x7F = n := by
  have hx := Nat.and_pow_two_sub_one_eq_mod n 7
  norm_num at hx
  rw [hx]; omega

lemma add_80_land_7F (n : Nat) (h : n < 128) : (n + 0x80) &&& 0x7F = n := by
  have hx := Nat.and_pow_two_sub_one_eq_mod (n + 0x80) 7
  norm_num at hx
  rw [hx]; omega

lemma land_80_of_lt (n : Nat) (h : n < 128) : n &&& 0x80 = 0 := by
  have hx := Nat.and_two_pow n 7
  norm_num at hx
  rw [hx]
  have ht : n.testBit 7 = false := Nat.testBit_lt_two_pow (by norm_num; omega)
  simp [ht]

lemma add_80_land_80 (n : Nat) (h : n < 128) : (n + 0x80) &&& 0x80 = 0x80 := by
  have hx := Nat.and_two_pow (n + 0x80) 7
  norm_num at hx
  rw [hx]
  have ht : (n + 0x80).testBit 7 = true := by
    rw [Nat.testBit_to_div_mod]
    norm_num
    omega
  simp [ht]

/-! ### Claim theorems -/

/-- C1: for every payload p with 0 ≤ len(p) ≤ 7, decoding the body
produced by encoding p returns p itself:
parse_isotp_single_frame (make_isotp_single_frame p) = p. -/
theorem sf_roundtrip (p : List Nat) (h : p.length ≤ 7) :
    (make_isotp_single_frame p).map parse_isotp_single_frame = some p := by
  have hlen : ¬ p.length > 7 := by omega
  have hnib : p.length &&& 0x0F = p.length := land_0F_eq _ (by omega)
  simp [make_isotp_single_frame, hlen, ljust, parse_isotp_single_frame, hnib,
    List.take_append]

theorem sf_roundtrip_witness :
    (make_isotp_single_frame [0x10, 0x03]).map parse_isotp_single_frame =
      some [0x10, 0x03] :=
  sf_roundtrip [0x10, 0x03] (by decide)

/-- C10: parse_isotp_single_frame is total: the empty body yields the
empty payload, and in general the result is the truncated slice of
length min(n, len(body) - 1) where n is the length nibble of the first
byte. -/
theorem parse_total (data : List Nat) :
    parse_isotp_single_frame data = (data.drop 1).take (data.headD 0 &&& 0x0F) ∧
    (parse_isotp_single_frame data).length =
      min (data.headD 0 &&& 0x0F) (data.length - 1) := by
  cases data with
  | nil => simp [parse_isotp_single_frame]
  | cons b rest => simp [parse_isotp_single_frame, List.length_take]

/-- C8: the encoder fails exactly on payloads longer than 7 bytes, and
on the tool side this failure occurs before any frame is transmitted. -/
theorem encode_rejects_oversize :
    (∀ p : List Nat, make_isotp_single_frame p = none ↔ 7 < p.length) ∧
    ∀ (reqId resId : Nat) (p : List Nat) (polls : List (Option BusFrame)),
      7 < p.length →
      (clientSend reqId resId p polls).txFrames = [] ∧
      (clientSend reqId resId p polls).result =
        Except.error ClientError.payloadTooLarge := by
  constructor
  · intro p
    by_cases h : 7 < p.length <;> simp [make_isotp_single_frame, h]
  · intro reqId resId p polls h
    simp [clientSend, make_isotp_single_frame, h]

theorem encode_rejects_oversize_witness :
    (clientSend 0x7E0 0x7E8 [0, 0, 0, 0, 0, 0, 0, 0] []).txFrames = [] ∧
    (clientSend 0x7E0 0x7E8 [0, 0, 0, 0, 0, 0, 0, 0] []).result =
      Except.error ClientError.payloadTooLarge :=
  encode_rejects_oversize.2 0x7E0 0x7E8 [0, 0, 0, 0, 0, 0, 0, 0] [] (by decide)

/-- C7: for every request whose service id is none of the eight
supported services, the dispatcher replies with [0x7F, sid, 0x11],
reusing the incorrect-length/format code 0x11. -/
theorem unsupported_sid_nrc (st : ECUState) (r sid : Nat) (rest : List Nat)
    (h : sid ∉ [0x10, 0x11, 0x22, 0x27, 0x19, 0x31, 0x3E, 0x85]) :
    ecuDispatch st r (sid :: rest) = (st, [send_nrc sid 0x11]) := by
  simp only [List.mem_cons, List.mem_singleton, not_or] at h
  obtain ⟨h1, h2, h3, h4, h5, h6, h7, h8⟩ := h
  simp [ecuDispatch, h1, h2, h3, h4, h5, h6, h7, h8]

theorem unsupported_sid_nrc_witness :
    ecuDispatch ⟨false, none⟩ 0 [0x2E, 0x01] =
      (⟨false, none⟩, [send_nrc 0x2E 0x11]) :=
  unsupported_sid_nrc ⟨false, none⟩ 0 0x2E [0x01] (by decide)

/-- C3: for every SessionControl request whose core sub-function is 3,
the dispatcher emits exactly one interim negative reply
[0x7F, 0x10, 0x78], then the fixed 150 ms sleep, and only then — when
not suppressed — the final positive reply [0x50, 0x03]; the final reply
never precedes the interim one. -/
theorem session_pending_sequence (st : ECUState) (r sub : Nat)
    (rest : List Nat) (h : sub &&& 0x7F = 0x03) :
    ecuDispatch st r (0x10 :: sub :: rest) =
      (st, [send_nrc 0x10 0x78, ECUEvent.sleep 150] ++
        (if sub &&& 0x80 = 0 then [ECUEvent.tx [0x50, 0x03]] else [])) := by
  simp only [ecuDispatch, sub_spr]
  by_cases hs : sub &&& 0x80 = 0 <;> simp [h, hs]

theorem session_pending_sequence_witness :
    ecuDispatch ⟨false, none⟩ 0 [0x10, 0x03] =
      (⟨false, none⟩, [send_nrc 0x10 0x78, ECUEvent.sleep 150] ++
        (if 0x03 &&& 0x80 = 0 then [ECUEvent.tx [0x50, 0x03]] else [])) :=
  session_pending_sequence ⟨false, none⟩ 0 0x03 [] (by decide)

/-- C5: a SecurityAccess send-key request arriving with stored seed s
unlocks and replies [0x67, 0x02] exactly when the provided 16-bit key
equals (s + 1) mod 65536; any other key locks and draws the invalid-key
negative response [0x7F, 0x27, 0x35]. -/
theorem security_key_check (st : ECUState) (r s kHi kLo : Nat)
    (hs : st.lastSeed = some s) :
    ecuDispatch st r [0x27, 0x02, kHi, kLo] =
      if (kHi <<< 8) ||| kLo = (s + 1) % 65536 then
        ({ st with unlocked := true }, [ECUEvent.tx [0x67, 0x02]])
      else
        ({ st with unlocked := false }, [send_nrc 0x27 0x35]) := by
  have hmod : (s + 1) &&& 0xFFFF = (s + 1) % 65536 := by
    have hx := Nat.and_pow_two_sub_one_eq_mod (s + 1) 16
    norm_num at hx
    exact hx
  simp [ecuDispatch, hs, hmod]

theorem security_key_check_witness :
    ecuDispatch ⟨false, some 0x1234⟩ 0 [0x27, 0x02, 0x12, 0x35] =
      ({ unlocked := true, lastSeed := some 0x1234 }, [ECUEvent.tx [0x67, 0x02]]) := by
  have h := security_key_check ⟨false, some 0x1234⟩ 0 0x1234 0x12 0x35 rfl
  rw [if_pos (by decide)] at h
  exact h

/-- C9: if a send-key request arrives when no seed has ever been
requested, the expected key is (0 + 1) mod 65536 = 1, so key 0x0001
unlocks the unit and yields [0x67, 0x02] without any prior seed
exchange, while any key other than 1 locks it. -/
theorem key_without_seed (st : ECUState) (r : Nat) (h : st.lastSeed = none) :
    ecuDispatch st r [0x27, 0x02, 0x00, 0x01] =
      ({ st with unlocked := true }, [ECUEvent.tx [0x67, 0x02]]) ∧
    ∀ kHi kLo : Nat, (kHi <<< 8) ||| kLo ≠ 0x0001 →
      ecuDispatch st r [0x27, 0x02, kHi, kLo] =
        ({ st with unlocked := false }, [send_nrc 0x27 0x35]) := by
  constructor
  · simp [ecuDispatch, h]
  · intro kHi kLo hk
    simp [ecuDispatch, h, hk]

theorem key_without_seed_witness :
    ecuDispatch ⟨false, none⟩ 0 [0x27, 0x02, 0x00, 0x01] =
      ({ unlocked := true, lastSeed := none }, [ECUEvent.tx [0x67, 0x02]]) :=
  (key_without_seed ⟨false, none⟩ 0 rfl).1

/-! ### Receive-loop helper lemmas -/

lemma clientRecvLoop_ok_not_interim (resId : Nat) :
    ∀ (polls : List (Option BusFrame)) (pl : List Nat),
      clientRecvLoop resId polls = .ok pl → isInterim pl = false := by
  intro polls
  induction polls with
  | nil => intro pl h; simp [clientRecvLoop] at h
  | cons poll rest ih =>
    intro pl h
    cases poll with
    | none => exact ih pl (by simpa [clientRecvLoop] using h)
    | some f =>
      by_cases ha : f.arb = resId
      · simp only [clientRecvLoop, ha, if_true] at h
        by_cases hi : isInterim (parse_isotp_single_frame f.data)
        · rw [if_pos hi] at h
          exact ih pl h
        · rw [if_neg hi] at h
          obtain rfl : parse_isotp_single_frame f.data = pl :=
            Except.ok.inj h
          exact Bool.not_eq_true _ ▸ (by simpa using hi)
      · simp only [clientRecvLoop, ha, if_false] at h
        exact ih pl h

lemma clientRecvLoop_all_interim (resId : Nat) :
    ∀ polls : List (Option BusFrame),
      (∀ f : BusFrame, some f ∈ polls → f.arb = resId →
        isInterim (parse_isotp_single_frame f.data) = true) →
      clientRecvLoop resId polls = .error .timeout := by
  intro polls
  induction polls with
  | nil => intro _; rfl
  | cons poll rest ih =>
    intro h
    have hrest : ∀ f : BusFrame, some f ∈ rest → f.arb = resId →
        isInterim (parse_isotp_single_frame f.data) = true := by
      intro f hf ha
      exact h f (List.mem_cons_of_mem _ hf) ha
    cases poll with
    | none => simpa [clientRecvLoop] using ih hrest
    | some f =>
      by_cases ha : f.arb = resId
      · have hi := h f (List.mem_cons_self _ _) ha
        simp only [clientRecvLoop, ha, if_true, hi, if_pos]
        exact ih hrest
      · simp only [clientRecvLoop, ha, if_false]
        exact ih hrest

lemma clientRecvLoop_ok_source (resId : Nat) :
    ∀ (polls : List (Option BusFrame)) (pl : List Nat),
      clientRecvLoop resId polls = .ok pl →
      ∃ f : BusFrame, some f ∈ polls ∧ f.arb = resId ∧
        pl = parse_isotp_single_frame f.data ∧ isInterim pl = false := by
  intro polls
  induction polls with
  | nil => intro pl h; simp [clientRecvLoop] at h
  | cons poll rest ih =>
    intro pl h
    cases poll with
    | none =>
      obtain ⟨f, hf, ha, hp, hi⟩ := ih pl (by simpa [clientRecvLoop] using h)
      exact ⟨f, List.mem_cons_of_mem _ hf, ha, hp, hi⟩
    | some f =>
      by_cases ha : f.arb = resId
      · simp only [clientRecvLoop, ha, if_true] at h
        by_cases hi : isInterim (parse_isotp_single_frame f.data)
        · rw [if_pos hi] at h
          obtain ⟨g, hg, hga, hgp, hgi⟩ := ih pl h
          exact ⟨g, List.mem_cons_of_mem _ hg, hga, hgp, hgi⟩
        · rw [if_neg hi] at h
          obtain rfl : parse_isotp_single_frame f.data = pl :=
            Except.ok.inj h
          exact ⟨f, List.mem_cons_self _ _, ha, rfl, by simpa using hi⟩
      · simp only [clientRecvLoop, ha, if_false] at h
        obtain ⟨g, hg, hga, hgp, hgi⟩ := ih pl h
        exact ⟨g, List.mem_cons_of_mem _ hg, hga, hgp, hgi⟩

/-- C2: the client send never returns an interim response-pending
payload as its final result, and — the deadline being the fixed trace
of polls — if every response-address frame seen before the deadline is
interim, send fails with the Timeout error. -/
theorem send_interim_filtering (reqId resId : Nat) (payload : List Nat)
    (polls : List (Option BusFrame)) :
    (∀ pl, (clientSend reqId resId payload polls).result = .ok pl →
      isInterim pl = false) ∧
    (payload.length ≤ 7 →
      (∀ f : BusFrame, some f ∈ polls → f.arb = resId →
        isInterim (parse_isotp_single_frame f.data) = true) →
      (clientSend reqId resId payload polls).result =
        .error .timeout) := by
  constructor
  · intro pl h
    unfold clientSend at h
    cases hm : make_isotp_single_frame payload with
    | none => rw [hm] at h; simp at h
    | some body =>
      rw [hm] at h
      exact clientRecvLoop_ok_not_interim resId polls pl h
  · intro hlen hall
    have hm : ¬ payload.length > 7 := by omega
    simp only [clientSend, make_isotp_single_frame, if_neg hm]
    exact clientRecvLoop_all_interim resId polls hall

theorem send_interim_filtering_witness :
    (clientSend 0x7E0 0x7E8 [0x10, 0x03]
      [some ⟨0x7E8, [0x03, 0x7F, 0x10, 0x78, 0x00, 0x00, 0x00, 0x00]⟩]).result =
      .error .timeout := by
  refine (send_interim_filtering 0x7E0 0x7E8 [0x10, 0x03] _).2 (by decide) ?_
  intro f hf ha
  simp only [List.mem_singleton, Option.some.injEq] at hf
  subst hf
  decide

/-- C6 (amended): every payload returned by the client send comes from
a received frame whose arbitration id equals the configured response
address and is the (non-interim) decode of that frame body; frames from
other addresses are skipped. The code has no non-emptiness filter, so
the returned payload may be empty. -/
theorem send_final_from_response_address (reqId resId : Nat)
    (payload pl : List Nat) (polls : List (Option BusFrame))
    (h : (clientSend reqId resId payload polls).result = .ok pl) :
    ∃ f : BusFrame, some f ∈ polls ∧ f.arb = resId ∧
      pl = parse_isotp_single_frame f.data ∧ isInterim pl = false := by
  unfold clientSend at h
  cases hm : make_isotp_single_frame payload with
  | none => rw [hm] at h; simp at h
  | some body =>
    rw [hm] at h
    exact clientRecvLoop_ok_source resId polls pl h

theorem send_final_from_response_address_witness :
    ∃ f : BusFrame,
      some f ∈ [some (⟨0x7E8, [0x02, 0x50, 0x03, 0x00, 0x00, 0x00, 0x00, 0x00]⟩ : BusFrame)] ∧
      f.arb = 0x7E8 ∧
      [0x50, 0x03] = parse_isotp_single_frame f.data ∧
      isInterim [0x50, 0x03] = false :=
  send_final_from_response_address 0x7E0 0x7E8 [0x10, 0x03] [0x50, 0x03]
    [some ⟨0x7E8, [0x02, 0x50, 0x03, 0x00, 0x00, 0x00, 0x00, 0x00]⟩] rfl

/-- C6 is false as stated: a response-address frame whose body decodes
to the empty segment is not skipped — the client returns the empty
payload as its final result. -/
theorem send_returns_empty_payload :
    (clientSend 0x7E0 0x7E8 [0x3E, 0x00]
      [some ⟨0x7E8, [0x00, 0x00, 0x00, 0x00, 0x00, 0x00, 0x00, 0x00]⟩]).result =
      .ok [] := rfl

/-- C4: for the services honouring the suppress-positive bit, setting
bit 7 of the sub-function leaves the resulting state unchanged and
removes exactly the final positive transmissions from the emitted
effects; in particular SessionControl sub 0x83 still emits the interim
pending reply and the 150 ms sleep, and TesterPresent sub 0x80
produces no reply at all. -/
theorem suppress_only_final (sid : Nat)
    (hsid : sid = 0x10 ∨ sid = 0x11 ∨ sid = 0x3E ∨ sid = 0x85)
    (st : ECUState) (r sub : Nat) (rest : List Nat) (hsub : sub < 0x80) :
    ((ecuDispatch st r (sid :: (sub + 0x80) :: rest)).1 =
       (ecuDispatch st r (sid :: sub :: rest)).1 ∧
     (ecuDispatch st r (sid :: (sub + 0x80) :: rest)).2 =
       (ecuDispatch st r (sid :: sub :: rest)).2.filter
         (fun e => !(isFinalPositive e))) ∧
    ecuDispatch st r [0x10, 0x83] =
      (st, [send_nrc 0x10 0x78, ECUEvent.sleep 150]) ∧
    ecuDispatch st r [0x3E, 0x80] = (st, []) := by
  have h1 := land_7F_of_lt sub hsub
  have h2 := add_80_land_7F sub hsub
  have h3 := land_80_of_lt sub hsub
  have h4 := add_80_land_80 sub hsub
  have e1 : (0x83 : Nat) &&& 0x7F = 0x03 := by decide
  have e2 : (0x83 : Nat) &&& 0x80 = 0x80 := by decide
  have e3 : (0x80 : Nat) &&& 0x7F = 0x00 := by decide
  have e4 : (0x80 : Nat) &&& 0x80 = 0x80 := by decide
  refine ⟨?_, by simp [ecuDispatch, sub_spr, e1, e2],
    by simp [ecuDispatch, sub_spr, e3, e4]⟩
  have hlen : ¬ (rest.length + 1 + 1 < 2) := by omega
  rcases hsid with h | h | h | h <;> subst h
  · by_cases hc : sub = 0x01 ∨ sub = 0x03
    · rcases hc with hc | hc <;> subst hc <;>
        simp [ecuDispatch, sub_spr, h1, h2, h3, h4, hlen, isFinalPositive,
          send_nrc, List.filter]
    · simp [ecuDispatch, sub_spr, h1, h2, h3, h4, hc, hlen, isFinalPositive,
        send_nrc, List.filter]
  · by_cases hc : sub = 0x01 ∨ sub = 0x03
    · rcases hc with hc | hc <;> subst hc <;>
        simp [ecuDispatch, sub_spr, h1, h2, h3, h4, hlen, isFinalPositive,
          send_nrc, List.filter]
    · simp [ecuDispatch, sub_spr, h1, h2, h3, h4, hc, hlen, isFinalPositive,
        send_nrc, List.filter]
  · simp [ecuDispatch, sub_spr, h1, h2, h3, h4, hlen, isFinalPositive,
      send_nrc, List.filter]
  · by_cases hc : sub = 0x01 ∨ sub = 0x02
    · rcases hc with hc | hc <;> subst hc <;>
        simp [ecuDispatch, sub_spr, h1, h2, h3, h4, hlen, isFinalPositive,
          send_nrc, List.filter]
    · simp [ecuDispatch, sub_spr, h1, h2, h3, h4, hc, hlen, isFinalPositive,
        send_nrc, List.filter]

theorem suppress_only_final_witness :
    ecuDispatch ⟨false, none⟩ 0 [0x3E, 0x80] = (⟨false, none⟩, []) ∧
    (ecuDispatch ⟨false, none⟩ 0 (0x3E :: (0x00 + 0x80) :: [])).2 =
      (ecuDispatch ⟨false, none⟩ 0 (0x3E :: 0x00 :: [])).2.filter
        (fun e => !(isFinalPositive e)) := by
  have h := suppress_only_final 0x3E (by tauto) ⟨false, none⟩ 0 0x00 []
    (by decide)
  exact ⟨h.2.2, h.1.2⟩

end UDSLab
